import Mathlib

/-!
Shallow embedding of the printbridge ESC/POS command builder and transport
adapters (Go sources under pkg/printer and pkg/adapter), together with
theorems checking the claims of the specification about them.

Go strings are byte sequences; we model them as `List Nat` (each element a
byte value). `ascii s` converts a Lean string literal of ASCII characters
to its byte list, matching the Go conversion `[]byte(s)` for ASCII content.
-/

def ascii (s : String) : List Nat := s.data.map Char.toNat

/-- The Go conversion `byte(x)` for a signed integer: the low 8 bits. -/
def byteOf (i : Int) : Nat := (i % 256).toNat

/-- The Go conversion `byte(n)` for a non-negative integer value. -/
def byteOfNat (n : Nat) : Nat := n % 256

namespace PB

/- ===== Byte-command table (pkg/printer/commands.go) ===== -/

def HW_INIT : List Nat := [0x1b, 0x40]
def CTL_LF : List Nat := [0x0a]

def TXT_UNDERL_OFF : List Nat := [0x1b, 0x2d, 0x00]
def TXT_UNDERL_ON : List Nat := [0x1b, 0x2d, 0x01]
def TXT_UNDERL2_ON : List Nat := [0x1b, 0x2d, 0x02]

def TXT_BOLD_OFF : List Nat := [0x1b, 0x45, 0x00]
def TXT_BOLD_ON : List Nat := [0x1b, 0x45, 0x01]

def TXT_ALIGN_LT : List Nat := [0x1b, 0x61, 0x00]
def TXT_ALIGN_CT : List Nat := [0x1b, 0x61, 0x01]
def TXT_ALIGN_RT : List Nat := [0x1b, 0x61, 0x02]

def PAPER_FULL_CUT : List Nat := [0x1d, 0x56, 0x00]
def PAPER_PART_CUT : List Nat := [0x1d, 0x56, 0x01]

def BARCODE_TXT_BLW : List Nat := [0x1d, 0x48, 0x02]
def BARCODE_FONT_A : List Nat := [0x1d, 0x66, 0x00]

def BARCODE_UPC_A : List Nat := [0x1d, 0x6b, 0x00]
def BARCODE_UPC_E : List Nat := [0x1d, 0x6b, 0x01]
def BARCODE_EAN13 : List Nat := [0x1d, 0x6b, 0x02]
def BARCODE_EAN8 : List Nat := [0x1d, 0x6b, 0x03]
def BARCODE_CODE39 : List Nat := [0x1d, 0x6b, 0x04]
def BARCODE_CODE128 : List Nat := [0x1d, 0x6b, 0x49]

def QR_MODEL : List Nat := [0x1d, 0x28, 0x6b, 0x04, 0x00, 0x31, 0x41]
def QR_SIZE : List Nat := [0x1d, 0x28, 0x6b, 0x03, 0x00, 0x31, 0x43]
def QR_ERROR : List Nat := [0x1d, 0x28, 0x6b, 0x03, 0x00, 0x31, 0x45]
def QR_STORE_PRE : List Nat := [0x1d, 0x28, 0x6b]
def QR_STORE_POST : List Nat := [0x31, 0x50, 0x30]
def QR_PRINT : List Nat := [0x1d, 0x28, 0x6b, 0x03, 0x00, 0x31, 0x51, 0x30]

/-- `TxtCustomSize` from commands.go: clamp width and height into [1,8]
(each bound checked in sequence, as in the Go source) and encode
`GS ! ((width-1)*16 + (height-1))`. -/
def TxtCustomSize (width height : Int) : List Nat :=
  let w1 : Int := if width < 1 then 1 else width
  let w2 : Int := if w1 > 8 then 8 else w1
  let h1 : Int := if height < 1 then 1 else height
  let h2 : Int := if h1 > 8 then 8 else h1
  [0x1d, 0x21, byteOf ((w2 - 1) * 16 + (h2 - 1))]

/-- `BarcodeHeight` from commands.go: clamp into [1,255], emit `GS h n`. -/
def BarcodeHeight (height : Int) : List Nat :=
  let h1 : Int := if height < 1 then 1 else height
  let h2 : Int := if h1 > 255 then 255 else h1
  [0x1d, 0x68, byteOf h2]

/-- `BarcodeWidth` from commands.go: clamp into [2,6], emit `GS w n`. -/
def BarcodeWidth (width : Int) : List Nat :=
  let w1 : Int := if width < 2 then 2 else width
  let w2 : Int := if w1 > 6 then 6 else w1
  [0x1d, 0x77, byteOf w2]

/- ===== QR constants (printer.go) ===== -/

def QRErrorL : Int := 48
def QRErrorM : Int := 49
def QRErrorQ : Int := 50
def QRErrorH : Int := 51

def QRModel1 : Int := 49
def QRModel2 : Int := 50

/- ===== Command builder (printer.go) ===== -/

/-- The `Printer` struct: the byte buffer plus the tracked character width
(the bound adapter is passed explicitly to `Flush`; the unused `encoding`
field is omitted). -/
structure Printer where
  buffer : List Nat
  width : Int
deriving DecidableEq

/-- `New`: empty buffer, default width 48. -/
def Printer.new : Printer := { buffer := [], width := 48 }

def Printer.Init (p : Printer) : Printer :=
  { p with buffer := p.buffer ++ HW_INIT }

def Printer.Text (p : Printer) (content : List Nat) : Printer :=
  { p with buffer := p.buffer ++ content }

/-- `Feed(n)`: append `CTL_LF` once per loop iteration (`n` times; none
when `n ≤ 0`, as the Go `for` loop body never runs). -/
def Printer.Feed (p : Printer) (n : Int) : Printer :=
  { p with buffer := p.buffer ++ List.flatten (List.replicate n.toNat CTL_LF) }

def Printer.Align (p : Printer) (a : List Nat) : Printer :=
  if a = ascii "left" ∨ a = ascii "lt" ∨ a = ascii "LT" then
    { p with buffer := p.buffer ++ TXT_ALIGN_LT }
  else if a = ascii "center" ∨ a = ascii "ct" ∨ a = ascii "CT" then
    { p with buffer := p.buffer ++ TXT_ALIGN_CT }
  else if a = ascii "right" ∨ a = ascii "rt" ∨ a = ascii "RT" then
    { p with buffer := p.buffer ++ TXT_ALIGN_RT }
  else p

def Printer.Bold (p : Printer) (b : Bool) : Printer :=
  if b then { p with buffer := p.buffer ++ TXT_BOLD_ON }
  else { p with buffer := p.buffer ++ TXT_BOLD_OFF }

def Printer.Size (p : Printer) (width height : Int) : Printer :=
  { p with buffer := p.buffer ++ TxtCustomSize width height }

/-- `Cut(partial)`: three line feeds, then partial or full cut. -/
def Printer.Cut (p : Printer) (part : Bool) : Printer :=
  let p1 := p.Feed 3
  if part then { p1 with buffer := p1.buffer ++ PAPER_PART_CUT }
  else { p1 with buffer := p1.buffer ++ PAPER_FULL_CUT }

/-- The `switch barcodeType` of `Printer.Barcode`: type selector bytes,
defaulting to CODE39 for unrecognized type strings. -/
def barcodeSelector (barcodeType : List Nat) : List Nat :=
  if barcodeType = ascii "UPC_A" ∨ barcodeType = ascii "UPC-A" then BARCODE_UPC_A
  else if barcodeType = ascii "UPC_E" ∨ barcodeType = ascii "UPC-E" then BARCODE_UPC_E
  else if barcodeType = ascii "EAN13" then BARCODE_EAN13
  else if barcodeType = ascii "EAN8" then BARCODE_EAN8
  else if barcodeType = ascii "CODE39" then BARCODE_CODE39
  else if barcodeType = ascii "CODE128" then BARCODE_CODE128
  else BARCODE_CODE39

/-- `Barcode(code, barcodeType, width, height)`: HRI below, HRI font A,
height command, width command, type selector, code bytes, NUL terminator. -/
def Printer.Barcode (p : Printer) (code barcodeType : List Nat)
    (width height : Int) : Printer :=
  { p with buffer :=
      p.buffer ++ BARCODE_TXT_BLW ++ BARCODE_FONT_A
        ++ BarcodeHeight height ++ BarcodeWidth width
        ++ barcodeSelector barcodeType ++ code ++ [0x00] }

/-- `QRCodeAdvanced(content, size, errorLevel, model)`: size below 1 is
replaced by 6, size above 16 by 16 (sequential reassignments as in the
source); then model, size, error level, store-data (with low/high length
prefix of `len+3`) and print commands. -/
def Printer.QRCodeAdvanced (p : Printer) (content : List Nat)
    (size errorLevel model : Int) : Printer :=
  let s1 : Int := if size < 1 then 6 else size
  let s2 : Int := if s1 > 16 then 16 else s1
  let storeLen : Nat := content.length + 3
  let pL : Nat := byteOfNat (storeLen % 256)
  let pH : Nat := byteOfNat (storeLen / 256)
  { p with buffer :=
      p.buffer ++ QR_MODEL ++ [byteOf model, 0x00]
        ++ QR_SIZE ++ [byteOf s2]
        ++ QR_ERROR ++ [byteOf errorLevel]
        ++ QR_STORE_PRE ++ [pL, pH] ++ QR_STORE_POST ++ content
        ++ QR_PRINT }

/-- The `content` local of `QRCodeWiFi`:
`WIFI:T:<auth>;S:<ssid>;P:<password>;H:<true|false>;;`. -/
def wifiContent (ssid password authType : List Nat) (hidden : Bool) : List Nat :=
  let hiddenStr := if hidden then ascii "true" else ascii "false"
  ascii "WIFI:T:" ++ authType ++ ascii ";S:" ++ ssid ++ ascii ";P:"
    ++ password ++ ascii ";H:" ++ hiddenStr ++ ascii ";;"

/-- `QRCodeWiFi(ssid, password, authType, hidden)`: format the WiFi
credential payload and delegate to `QRCodeAdvanced` with size 6, error
level M, model 2. -/
def Printer.QRCodeWiFi (p : Printer) (ssid password authType : List Nat)
    (hidden : Bool) : Printer :=
  p.QRCodeAdvanced (wifiContent ssid password authType hidden) 6 QRErrorM QRModel2

/- ===== Transport adapters (pkg/adapter) =====

Each adapter is modelled as the state it owns; OS results (a USB device
handle, a TCP connection, a spooler handle) are supplied as explicit
parameters to `Open`, with `none` standing for the underlying call
failing.  `acquired` records every resource a successful open obtained,
`sent` records each payload actually transmitted. -/

/-- Console adapter (console.go): a single `open` flag, writes go to
stdout (recorded in `printed`). -/
structure ConsoleAdapter where
  isOpen : Bool
  printed : List (List Nat)
deriving DecidableEq

def ConsoleAdapter.Open (c : ConsoleAdapter) : Option String × ConsoleAdapter :=
  (none, { c with isOpen := true })

def ConsoleAdapter.Write (c : ConsoleAdapter) (data : List Nat) :
    Option String × ConsoleAdapter :=
  if ¬ c.isOpen then (some "adapter not open", c)
  else (none, { c with printed := c.printed ++ [data] })

def ConsoleAdapter.Close (c : ConsoleAdapter) : Option String × ConsoleAdapter :=
  (none, { c with isOpen := false })

/-- Network adapter (network.go): `Open` dials TCP unless already open;
`conn` is the live connection, `acquired` every connection ever dialed. -/
structure NetworkAdapter where
  isOpen : Bool
  conn : Option Nat
  acquired : List Nat
  sent : List (List Nat)
deriving DecidableEq

def NetworkAdapter.Open (n : NetworkAdapter) (dial : Option Nat) :
    Option String × NetworkAdapter :=
  if n.isOpen then (none, n)
  else
    match dial with
    | none => (some "failed to connect", n)
    | some c =>
        (none, { n with isOpen := true, conn := some c,
                        acquired := n.acquired ++ [c] })

def NetworkAdapter.Write (n : NetworkAdapter) (data : List Nat) :
    Option String × NetworkAdapter :=
  if ¬ n.isOpen then (some "adapter not open", n)
  else (none, { n with sent := n.sent ++ [data] })

def NetworkAdapter.Close (n : NetworkAdapter) : Option String × NetworkAdapter :=
  if ¬ n.isOpen then (none, n)
  else (none, { n with isOpen := false, conn := none })

/-- USB adapter (usb.go): `Open` returns immediately when already open,
otherwise claims the device/interface/endpoint bundle (one abstract
resource id). -/
structure USBAdapter where
  isOpen : Bool
  handle : Option Nat
  acquired : List Nat
  sent : List (List Nat)
deriving DecidableEq

def USBAdapter.Open (u : USBAdapter) (os : Option Nat) :
    Option String × USBAdapter :=
  if u.isOpen then (none, u)
  else
    match os with
    | none => (some "failed to open device", u)
    | some h =>
        (none, { u with isOpen := true, handle := some h,
                        acquired := u.acquired ++ [h] })

def USBAdapter.Write (u : USBAdapter) (data : List Nat) :
    Option String × USBAdapter :=
  if ¬ u.isOpen then (some "adapter not open", u)
  else (none, { u with sent := u.sent ++ [data] })

def USBAdapter.Close (u : USBAdapter) : Option String × USBAdapter :=
  if ¬ u.isOpen then (none, u)
  else (none, { u with isOpen := false, handle := none })

/-- Windows spooler adapter (printer_windows.go): `handle` is the spooler
handle, 0 meaning closed (`IsOpen` is `handle != 0`).  `Open` calls
`OpenPrinterW` unconditionally — there is no already-open guard in the
source — and on success overwrites `handle` with the new one.  `Close`
releases the current handle only; `released` records every handle ever
passed to `ClosePrinter`. -/
structure WindowsPrinter where
  handle : Nat
  acquired : List Nat
  released : List Nat
  sent : List (List Nat)
deriving DecidableEq

def WindowsPrinter.Open (w : WindowsPrinter) (os : Option Nat) :
    Option String × WindowsPrinter :=
  match os with
  | none => (some "OpenPrinterW failed", w)
  | some h => (none, { w with handle := h, acquired := w.acquired ++ [h] })

def WindowsPrinter.Write (w : WindowsPrinter) (data : List Nat) :
    Option String × WindowsPrinter :=
  if w.handle = 0 then (some "printer not open", w)
  else (none, { w with sent := w.sent ++ [data] })

def WindowsPrinter.Close (w : WindowsPrinter) : Option String × WindowsPrinter :=
  if w.handle ≠ 0 then
    (none, { w with released := w.released ++ [w.handle], handle := 0 })
  else (none, w)

def WindowsPrinter.IsOpen (w : WindowsPrinter) : Bool := w.handle ≠ 0

/- ===== Flush (printer.go) against a recording mock transport ===== -/

/-- The recording mock transport that the test plan of the spec describes: it obeys
the Adapter contract, records every `Open` and `Write` call, and can be
told to fail `Open` or `Write`. -/
structure MockTransport where
  isOpen : Bool
  openFails : Bool
  writeFails : Bool
  openCalls : Nat
  writes : List (List Nat)
deriving DecidableEq

def MockTransport.Open (t : MockTransport) : Option String × MockTransport :=
  if t.openFails then
    (some "open failed", { t with openCalls := t.openCalls + 1 })
  else
    (none, { t with isOpen := true, openCalls := t.openCalls + 1 })

def MockTransport.Write (t : MockTransport) (data : List Nat) :
    Option String × MockTransport :=
  (if t.writeFails then some "write failed" else none,
   { t with writes := t.writes ++ [data] })

/-- `Printer.Flush`: empty buffer is a no-op; otherwise open the adapter
when not already open (returning a wrapped error on failure, buffer
untouched); then one `Write` of the whole buffer, the buffer is cleared,
and the write result is returned. -/
def Printer.Flush (p : Printer) (t : MockTransport) :
    Option String × Printer × MockTransport :=
  if p.buffer = [] then (none, p, t)
  else if t.isOpen then
    let w := t.Write p.buffer
    (w.1, { p with buffer := [] }, w.2)
  else
    match t.Open with
    | (some e, t1) => (some ("failed to open adapter: " ++ e), p, t1)
    | (none, t1) =>
        let w := t1.Write p.buffer
        (w.1, { p with buffer := [] }, w.2)

end PB

/- ===== Helper lemmas ===== -/

namespace PB

theorem BarcodeHeight_eq (h : Int) :
    BarcodeHeight h = [0x1d, 0x68, (max 1 (min 255 h)).toNat] := by
  simp only [BarcodeHeight, byteOf, max_def, min_def]
  split_ifs <;> simp <;> omega

theorem BarcodeWidth_eq (w : Int) :
    BarcodeWidth w = [0x1d, 0x77, (max 2 (min 6 w)).toNat] := by
  simp only [BarcodeWidth, byteOf, max_def, min_def]
  split_ifs <;> simp <;> omega

theorem TxtCustomSize_eq (w h : Int) :
    TxtCustomSize w h
      = [0x1d, 0x21,
         ((max 1 (min 8 w) - 1) * 16 + (max 1 (min 8 h) - 1)).toNat] := by
  simp only [TxtCustomSize, byteOf, max_def, min_def]
  split_ifs <;> simp <;> omega

theorem barcodeSelector_default (t : List Nat)
    (h : t ∉ [ascii "UPC_A", ascii "UPC-A", ascii "UPC_E", ascii "UPC-E",
              ascii "EAN13", ascii "EAN8", ascii "CODE39", ascii "CODE128"]) :
    barcodeSelector t = [0x1d, 0x6b, 0x04] := by
  simp only [List.mem_cons, List.not_mem_nil, or_false, not_or] at h
  obtain ⟨h1, h2, h3, h4, h5, h6, h7, h8⟩ := h
  simp [barcodeSelector, BARCODE_CODE39, h1, h2, h3, h4, h5, h6, h7, h8]

end PB

/- ===== Claim theorems ===== -/

namespace PB

/-- C1: on a fresh builder, the sequence Init, Align center, Bold on,
Text HELLO, Bold off, Cut full leaves the buffer equal byte-for-byte to
the concatenation of the init bytes, align-center bytes, bold-on bytes,
ASCII HELLO, bold-off bytes, three line feeds, and the full-cut bytes,
with nothing extra and no reordering. -/
theorem builder_roundtrip_hello :
    (((((Printer.new.Init.Align (ascii "center")).Bold true).Text
        (ascii "HELLO")).Bold false).Cut false).buffer
      = HW_INIT ++ TXT_ALIGN_CT ++ TXT_BOLD_ON ++ ascii "HELLO"
        ++ TXT_BOLD_OFF ++ [0x0a, 0x0a, 0x0a] ++ PAPER_FULL_CUT := by
  decide

/-- C3: `Size(width,height)` appends exactly `GS ! s` where `s` is
`(w-1)*16+(h-1)` for `w`,`h` the inputs clamped to the nearest bound of
[1,8]; in particular for in-range inputs the byte is
`(width-1)*16+(height-1)`.  No input is rejected. -/
theorem size_clamps_and_encodes (p : Printer) (width height : Int) :
    ((p.Size width height).buffer
        = p.buffer ++ [0x1d, 0x21,
            ((max 1 (min 8 width) - 1) * 16
              + (max 1 (min 8 height) - 1)).toNat])
    ∧ (1 ≤ width → width ≤ 8 → 1 ≤ height → height ≤ 8 →
        (p.Size width height).buffer
          = p.buffer ++ [0x1d, 0x21,
              ((width - 1) * 16 + (height - 1)).toNat]) := by
  constructor
  · simp [Printer.Size, TxtCustomSize_eq]
  · intro hw1 hw8 hh1 hh8
    have hmm : ((max 1 (min 8 width) - 1) * 16
        + (max 1 (min 8 height) - 1)).toNat
        = ((width - 1) * 16 + (height - 1)).toNat := by
      simp only [max_def, min_def]
      split_ifs <;> omega
    simp [Printer.Size, TxtCustomSize_eq, hmm]

/-- C3 witness: instantiation at width 3, height 2 (in range), so the
size byte is (3-1)*16+(2-1) = 33. -/
theorem size_clamps_and_encodes_witness :
    ((1:Int) ≤ 3 ∧ (3:Int) ≤ 8 ∧ (1:Int) ≤ 2 ∧ (2:Int) ≤ 8)
    ∧ (Printer.new.Size 3 2).buffer
        = Printer.new.buffer ++ [0x1d, 0x21, (((3:Int) - 1) * 16 + (2 - 1)).toNat] :=
  ⟨by decide,
   (size_clamps_and_encodes Printer.new 3 2).2 (by decide) (by decide)
     (by decide) (by decide)⟩

/-- C5: `Barcode` with type EAN13 appends the EAN13 selector bytes
`GS k 0x02` immediately followed by the code bytes (then the NUL
terminator); any type string outside the recognized set gets the CODE39
selector `GS k 0x04` instead of failing. -/
theorem barcode_ean13_and_fallback (p : Printer) (code : List Nat)
    (width height : Int) :
    ((p.Barcode code (ascii "EAN13") width height).buffer
        = p.buffer ++ BARCODE_TXT_BLW ++ BARCODE_FONT_A
          ++ BarcodeHeight height ++ BarcodeWidth width
          ++ [0x1d, 0x6b, 0x02] ++ code ++ [0x00])
    ∧ (∀ t : List Nat,
        t ∉ [ascii "UPC_A", ascii "UPC-A", ascii "UPC_E", ascii "UPC-E",
             ascii "EAN13", ascii "EAN8", ascii "CODE39", ascii "CODE128"] →
        (p.Barcode code t width height).buffer
          = p.buffer ++ BARCODE_TXT_BLW ++ BARCODE_FONT_A
            ++ BarcodeHeight height ++ BarcodeWidth width
            ++ [0x1d, 0x6b, 0x04] ++ code ++ [0x00]) := by
  constructor
  · have hsel : barcodeSelector (ascii "EAN13") = [0x1d, 0x6b, 0x02] := by
      decide
    simp [Printer.Barcode, hsel]
  · intro t ht
    simp [Printer.Barcode, barcodeSelector_default t ht]

/-- C5 witness: instantiation at the unrecognized type string QRX, which
falls back to the CODE39 selector. -/
theorem barcode_ean13_and_fallback_witness :
    (ascii "QRX" ∉ [ascii "UPC_A", ascii "UPC-A", ascii "UPC_E", ascii "UPC-E",
        ascii "EAN13", ascii "EAN8", ascii "CODE39", ascii "CODE128"])
    ∧ (Printer.new.Barcode (ascii "12345") (ascii "QRX") 3 80).buffer
        = Printer.new.buffer ++ BARCODE_TXT_BLW ++ BARCODE_FONT_A
          ++ BarcodeHeight 80 ++ BarcodeWidth 3
          ++ [0x1d, 0x6b, 0x04] ++ ascii "12345" ++ [0x00] :=
  ⟨by decide,
   (barcode_ean13_and_fallback Printer.new (ascii "12345") 3 80).2
     (ascii "QRX") (by decide)⟩

/-- C10: every `Barcode` call appends exactly HRI-below, HRI-font-A, the
height command with the height clamped to [1,255], the width command
with the width clamped to [2,6], the type selector, the code bytes, and
a single terminating NUL — fixed preamble and terminator on every call. -/
theorem barcode_layout (p : Printer) (code t : List Nat)
    (width height : Int) :
    (p.Barcode code t width height).buffer
      = p.buffer ++ [0x1d, 0x48, 0x02] ++ [0x1d, 0x66, 0x00]
        ++ [0x1d, 0x68, (max 1 (min 255 height)).toNat]
        ++ [0x1d, 0x77, (max 2 (min 6 width)).toNat]
        ++ barcodeSelector t ++ code ++ [0x00] := by
  simp [Printer.Barcode, BARCODE_TXT_BLW, BARCODE_FONT_A,
    BarcodeHeight_eq, BarcodeWidth_eq]

/-- C4: `QRCodeWiFi` stores as QR payload exactly
`WIFI:T:<auth>;S:<ssid>;P:<password>;H:<true|false>;;`, and the
store-data command carries the two-byte length prefix
low = (len+3) mod 256, high = (len+3) div 256 (for payloads whose
length+3 fits the 16-bit prefix). -/
theorem qrcodewifi_payload_and_length (p : Printer)
    (ssid password authType : List Nat) (hidden : Bool)
    (hlen : (wifiContent ssid password authType hidden).length + 3 < 65536) :
    (wifiContent ssid password authType hidden
        = ascii "WIFI:T:" ++ authType ++ ascii ";S:" ++ ssid ++ ascii ";P:"
          ++ password ++ ascii ";H:"
          ++ (if hidden then ascii "true" else ascii "false") ++ ascii ";;")
    ∧ (p.QRCodeWiFi ssid password authType hidden).buffer
        = p.buffer ++ QR_MODEL ++ [50, 0x00] ++ QR_SIZE ++ [6]
          ++ QR_ERROR ++ [49] ++ QR_STORE_PRE
          ++ [((wifiContent ssid password authType hidden).length + 3) % 256,
              ((wifiContent ssid password authType hidden).length + 3) / 256]
          ++ QR_STORE_POST ++ wifiContent ssid password authType hidden
          ++ QR_PRINT := by
  constructor
  · rfl
  · have e1 : ((wifiContent ssid password authType hidden).length + 3) % 256 % 256
        = ((wifiContent ssid password authType hidden).length + 3) % 256 := by
      omega
    have e2 : ((wifiContent ssid password authType hidden).length + 3) / 256 % 256
        = ((wifiContent ssid password authType hidden).length + 3) / 256 := by
      omega
    simp only [Printer.QRCodeWiFi, Printer.QRCodeAdvanced, byteOf, byteOfNat,
      QRErrorM, QRModel2, e1, e2]
    norm_num
    decide

/-- C4 witness: the concrete call QRCodeWiFi("Net","pw","WPA",false); the
payload is the 31-byte string WIFI:T:WPA;S:Net;P:pw;H:false;; so the
length prefix is low 34, high 0. -/
theorem qrcodewifi_payload_and_length_witness :
    ((wifiContent (ascii "Net") (ascii "pw") (ascii "WPA") false).length + 3 < 65536)
    ∧ (Printer.new.QRCodeWiFi (ascii "Net") (ascii "pw") (ascii "WPA") false).buffer
        = QR_MODEL ++ [50, 0x00] ++ QR_SIZE ++ [6] ++ QR_ERROR ++ [49]
          ++ QR_STORE_PRE ++ [34, 0] ++ QR_STORE_POST
          ++ ascii "WIFI:T:WPA;S:Net;P:pw;H:false;;" ++ QR_PRINT :=
  ⟨by decide,
   ((qrcodewifi_payload_and_length Printer.new (ascii "Net") (ascii "pw")
       (ascii "WPA") false (by decide)).2).trans (by decide)⟩

/-- C7 counterexample: QRCodeAdvanced with size 0 emits size byte 6 (the
default), not the claimed clamped value 1. -/
theorem qr_size_zero_encodes_six :
    ((Printer.new.QRCodeAdvanced (ascii "A") 0 QRErrorL QRModel2).buffer
        = QR_MODEL ++ [50, 0x00] ++ QR_SIZE ++ [6] ++ QR_ERROR ++ [48]
          ++ QR_STORE_PRE ++ [4, 0] ++ QR_STORE_POST ++ ascii "A" ++ QR_PRINT)
    ∧ ¬ ((Printer.new.QRCodeAdvanced (ascii "A") 0 QRErrorL QRModel2).buffer
        = QR_MODEL ++ [50, 0x00] ++ QR_SIZE ++ [1] ++ QR_ERROR ++ [48]
          ++ QR_STORE_PRE ++ [4, 0] ++ QR_STORE_POST ++ ascii "A" ++ QR_PRINT) := by
  decide

/-- C7 amended: `QRCodeAdvanced` maps the module size into [1,16] before
emitting the size-setting command, but an input below 1 is replaced by
the default size 6 (not clamped to 1); an input above 16 becomes 16. -/
theorem qr_advanced_size_mapping (p : Printer) (content : List Nat)
    (size errorLevel model : Int) :
    (p.QRCodeAdvanced content size errorLevel model).buffer
      = p.buffer ++ QR_MODEL ++ [byteOf model, 0x00] ++ QR_SIZE
        ++ [(if size < 1 then (6 : Int) else if size > 16 then 16 else size).toNat]
        ++ QR_ERROR ++ [byteOf errorLevel] ++ QR_STORE_PRE
        ++ [(content.length + 3) % 256, (content.length + 3) / 256 % 256]
        ++ QR_STORE_POST ++ content ++ QR_PRINT := by
  have e1 : (content.length + 3) % 256 % 256 = (content.length + 3) % 256 := by
    omega
  have esize : byteOf (if (if size < 1 then (6 : Int) else size) > 16 then 16
        else if size < 1 then (6 : Int) else size)
      = (if size < 1 then (6 : Int) else if size > 16 then 16 else size).toNat := by
    simp only [byteOf]
    split_ifs <;> omega
  simp only [Printer.QRCodeAdvanced, byteOfNat, e1, esize]

/-- C2: Flush on a non-empty buffer opens the transport only when it is
not already open; an open failure is returned with the buffer left
untouched and nothing written; otherwise exactly one Write of the whole
buffer happens, the buffer is cleared whether or not the Write
succeeded, and the Write error (if any) is returned. -/
theorem flush_nonempty_contract (p : Printer) (t : MockTransport)
    (hne : p.buffer ≠ []) :
    (t.isOpen = true →
        p.Flush t
          = ((if t.writeFails then some "write failed" else none : Option String),
             { p with buffer := [] },
             { t with writes := t.writes ++ [p.buffer] }))
    ∧ (t.isOpen = false → t.openFails = true →
        p.Flush t
          = (some "failed to open adapter: open failed", p,
             { t with openCalls := t.openCalls + 1 }))
    ∧ (t.isOpen = false → t.openFails = false →
        p.Flush t
          = ((if t.writeFails then some "write failed" else none : Option String),
             { p with buffer := [] },
             { t with isOpen := true, openCalls := t.openCalls + 1,
                      writes := t.writes ++ [p.buffer] })) := by
  refine ⟨?_, ?_, ?_⟩
  · intro hopen
    simp [Printer.Flush, MockTransport.Write, hne, hopen]
  · intro hopen hfail
    simp [Printer.Flush, MockTransport.Open, hne, hopen, hfail]
  · intro hopen hok
    simp [Printer.Flush, MockTransport.Open, MockTransport.Write,
      hne, hopen, hok]

/-- C2 witness: flushing the buffer [1,2] through an already-open,
non-failing mock records exactly one write of [1,2] and clears the
buffer. -/
theorem flush_nonempty_contract_witness :
    (([1, 2] : List Nat) ≠ [])
    ∧ (Printer.mk [1, 2] 48).Flush (MockTransport.mk true false false 0 [])
        = (none, Printer.mk [] 48,
           MockTransport.mk true false false 0 [[1, 2]]) :=
  ⟨by decide,
   ((flush_nonempty_contract (Printer.mk [1, 2] 48)
       (MockTransport.mk true false false 0 []) (by decide)).1 rfl).trans
     (by decide)⟩

/-- C9: Flush on an empty buffer returns success and changes nothing: no
Open, no Write, buffer and transport state untouched. -/
theorem flush_empty_noop (p : Printer) (t : MockTransport)
    (h : p.buffer = []) : p.Flush t = (none, p, t) := by
  simp [Printer.Flush, h]

/-- C9 witness: a fresh printer with an empty buffer flushed through a
closed mock transport. -/
theorem flush_empty_noop_witness :
    (Printer.new.buffer = [])
    ∧ Printer.new.Flush (MockTransport.mk false false false 0 [])
        = (none, Printer.new, MockTransport.mk false false false 0 []) :=
  ⟨rfl, flush_empty_noop Printer.new (MockTransport.mk false false false 0 []) rfl⟩

/-- C6: the Windows spooler adapter breaks the second-Open-is-a-no-op
contract: with the adapter already open on handle 5, a second successful
Open acquires a second spooler handle 7 and overwrites the first, and a
subsequent Close releases only handle 7 — handle 5 is leaked. -/
theorem windows_double_open_acquires_twice :
    (((WindowsPrinter.mk 0 [] [] []).Open (some 5)).2.IsOpen = true)
    ∧ ((((WindowsPrinter.mk 0 [] [] []).Open (some 5)).2.Open (some 7)).1 = none)
    ∧ ((((WindowsPrinter.mk 0 [] [] []).Open (some 5)).2.Open
          (some 7)).2.acquired = [5, 7])
    ∧ (((((WindowsPrinter.mk 0 [] [] []).Open (some 5)).2.Open
          (some 7)).2.Close).2.released = [7]) := by
  decide

/-- C8: for the console, network, USB and Windows spooler adapters, Write
while not open returns a descriptive error and leaves the adapter state
unchanged — nothing is transmitted and no implicit Open happens. -/
theorem write_requires_open (data : List Nat) :
    (∀ c : ConsoleAdapter, c.isOpen = false →
        c.Write data = (some "adapter not open", c))
    ∧ (∀ n : NetworkAdapter, n.isOpen = false →
        n.Write data = (some "adapter not open", n))
    ∧ (∀ u : USBAdapter, u.isOpen = false →
        u.Write data = (some "adapter not open", u))
    ∧ (∀ w : WindowsPrinter, w.handle = 0 →
        w.Write data = (some "printer not open", w)) := by
  refine ⟨?_, ?_, ?_, ?_⟩ <;> intro s hs <;>
    simp [ConsoleAdapter.Write, NetworkAdapter.Write, USBAdapter.Write,
      WindowsPrinter.Write, hs]

/-- C8 witness: each adapter in its freshly-created closed state rejects
a write of [1] and is returned unchanged. -/
theorem write_requires_open_witness :
    ((ConsoleAdapter.mk false []).isOpen = false)
    ∧ (ConsoleAdapter.mk false []).Write [1]
        = (some "adapter not open", ConsoleAdapter.mk false [])
    ∧ (NetworkAdapter.mk false none [] []).Write [1]
        = (some "adapter not open", NetworkAdapter.mk false none [] [])
    ∧ (USBAdapter.mk false none [] []).Write [1]
        = (some "adapter not open", USBAdapter.mk false none [] [])
    ∧ (WindowsPrinter.mk 0 [] [] []).Write [1]
        = (some "printer not open", WindowsPrinter.mk 0 [] [] []) := by
  have h := write_requires_open [1]
  exact ⟨rfl, h.1 _ rfl, h.2.1 _ rfl, h.2.2.1 _ rfl, h.2.2.2 _ rfl⟩

end PB
